import Mathlib

/-!
Shallow embedding of the nessy-rs 6502 (Ricoh 2A03) CPU core.

Conventions of the embedding:
* machine integers (u8, u16) are modelled as Nat with explicit reduction
  modulo 256 and 65536 at exactly the operations where the Rust source
  wraps (wrapping_add, `as u8`, `as u16`, shifts on fixed-width types);
* signed i16 values are modelled as Int, with explicit two-complement
  wrap where an i16 operation can overflow;
* plain `+=`, `-=` and `+` on machine integers are given the wrapping
  (release-profile) semantics, uniformly;
* the explicit failure points of the source, the unknown-opcode panic in
  Nessy::execute and the unreachable arm of get_cycles, are modelled as
  error results (Except, Option);
* the 64KB memory array is a function Nat -> Nat holding bytes; the PPU
  bookkeeping tail of Nessy::execute (which only refreshes PPU-side
  registers and the ppu_cycle and frames counters) is not modelled, as no
  property below depends on it.
-/

namespace NessyRs

/-- One byte write into the 64K memory array. -/
def writeMem (f : Nat → Nat) (a v : Nat) : Nat → Nat :=
  fun x => if x = a then v else f x

/-- MOS6502 registers, from cpu/mod.rs: a, x, y are u8, s is a u8 stack
pointer field (unused by the core, which keeps the live stack pointer in
Memory), pc is u16, status is the u8 flag byte. -/
structure Registers where
  a : Nat
  x : Nat
  y : Nat
  s : Nat
  pc : Nat
  status : Nat

/-- Status flag bit positions, from cpu/mod.rs enum StatusFlag. -/
inductive StatusFlag where
  | N | V | Unused | B | D | I | Z | C
deriving DecidableEq

/-- The bit index of each status flag (the repr(u8) discriminants). -/
def StatusFlag.bit : StatusFlag → Nat
  | .N => 7
  | .V => 6
  | .Unused => 5
  | .B => 4
  | .D => 3
  | .I => 2
  | .Z => 1
  | .C => 0

/-- Registers::new. -/
def Registers.new : Registers :=
  { a := 0, x := 0, y := 0, s := 0, pc := 0, status := 0 }

/-- Registers::set_flag: status |= 1 << flag, or status &= !(1 << flag)
(u8 complement). -/
def Registers.set_flag (r : Registers) (flag : StatusFlag) (activated : Bool) : Registers :=
  if activated then
    { r with status := r.status ||| (1 <<< flag.bit) }
  else
    { r with status := r.status &&& (0xFF ^^^ (1 <<< flag.bit)) }

/-- Registers::is_flag_set. -/
def Registers.is_flag_set (r : Registers) (flag : StatusFlag) : Bool :=
  r.status &&& (1 <<< flag.bit) == (1 <<< flag.bit)

/-- NES memory, from cpu/mod.rs: the 64K byte array plus the stack
pointer, which the source stores as an unmasked u16 (the ppu array is
never touched by the CPU core and is omitted). -/
structure Memory where
  mem : Nat → Nat
  stack_pointer : Nat

/-- Memory::new: all bytes zero, stack_pointer = 0x01FF. -/
def Memory.new : Memory :=
  { mem := fun _ => 0, stack_pointer := 0x01FF }

/-- Memory::stack_push: writes val at 0x100 | stack_pointer, then
stack_pointer -= 1 with u16 wrapping (the debug profile would instead
panic on underflow at stack_pointer = 0). -/
def Memory.stack_push (m : Memory) (val : Nat) : Memory :=
  { mem := writeMem m.mem (0x100 ||| m.stack_pointer) val,
    stack_pointer := (m.stack_pointer + 0xFFFF) % 0x10000 }

/-- Memory::stack_pop: stack_pointer += 1 (u16 wrapping), then reads
0x100 | stack_pointer. -/
def Memory.stack_pop (m : Memory) : Nat × Memory :=
  let sp := (m.stack_pointer + 1) % 0x10000
  (m.mem (0x100 ||| sp), { m with stack_pointer := sp })

/-- Addressing modes, from cpu/mod.rs. -/
inductive AddressingMode where
  | Accumulator
  | Implied
  | Immediate
  | Absolute
  | ZeroPage
  | Relative
  | AbsoluteIndirect
  | AbsoluteIndirectWithX
  | AbsoluteIndirectWithY
  | ZeroPageIndexedWithX
  | ZeroPageIndexedWithY
  | ZeroPageIndexedIndirect
  | ZeroPageIndirectIndexedWithY
deriving DecidableEq

/-- Instruction mnemonics, from cpu/instructions.rs. -/
inductive InstructionName where
  | SEI | CLD | LDA | BRK | STA | INC | LDX | TXS | AND | BEQ
  | CPX | DEY | BPL | PLA | TAY | CPY | BNE | RTS | JMP | STX
  | JSR | NOP | SEC | BCS | CLC | BCC | PHP | BIT | BVS | BVC
  | LDY | ASL | RTI | SBC | SED | CMP | PHA | PLP | BMI | ORA
  | CLV | EOR | ADC | STY | INY | INX | TAX | TYA | TXA | TSX
  | DEX | LSR | ROR | ROL | DEC
  | LAX | SAX | DCP | ISB | SLO | RLA | SRE | RRA
deriving DecidableEq

/-- Decode result, from cpu/instructions.rs enum Instruction. -/
inductive Instruction where
  | Official : InstructionName → AddressingMode → Instruction
  | Unofficial : InstructionName → AddressingMode → Instruction
  | Unknown : Instruction
deriving DecidableEq

/-- cpu/utils.rs address_from_bytes: (high as u16) << 8 | low. -/
def address_from_bytes (low_byte high_byte : Nat) : Nat :=
  (high_byte <<< 8) % 0x10000 ||| low_byte

def NMI_VECTOR_ADDRESS : Nat := 0xFFFA
def RESET_VECTOR_ADDRESS : Nat := 0xFFFC
def BREAK_VECTOR_ADDDRESS : Nat := 0xFFFE

/-- cpu/utils.rs get_operands: the two bytes after pc (u16 additions). -/
def get_operands (registers : Registers) (memory : Memory) : Nat × Nat :=
  (memory.mem ((registers.pc + 1) % 0x10000),
   memory.mem ((registers.pc + 2) % 0x10000))

/-- cpu/utils.rs is_page_crossed: high bytes differ. -/
def is_page_crossed (addr1 addr2 : Nat) : Bool :=
  addr1 &&& 0xFF00 != addr2 &&& 0xFF00

/-- The RAM-mirroring block inlined in Nessy::execute (nessy.rs lines
107-120): below 0x2000 reduce modulo 0x800; in the range 0x2000 to
0x3FFF compute addr % 0x2008 + 0x2000 (the inner addr > 0x007 test is
always true there); otherwise pass through. -/
def mirror_addr (addr : Nat) : Nat :=
  if addr < 0x2000 then
    addr % 0x0800
  else if 0x2000 ≤ addr ∧ addr < 0x4000 then
    if addr > 0x007 then addr % 0x2008 + 0x2000 else addr
  else
    addr

/-- Modelled from the spec: the mirroring invariant as the specification
words it, for comparison with mirror_addr. Addresses below 0x2000 are
mirrored every 0x0800 bytes; addresses in the range 0x2000 to 0x3FFF are
reduced to 0x2000 plus the address modulo 8. -/
def spec_mirror_addr (addr : Nat) : Nat :=
  if addr < 0x2000 then
    addr % 0x0800
  else if addr < 0x4000 then
    0x2000 + addr % 8
  else
    addr

/-- cpu/utils.rs num_operands_from_addressing. -/
def num_operands_from_addressing (adressing_mode : AddressingMode) : Nat :=
  match adressing_mode with
  | .Accumulator => 0
  | .Implied => 0
  | .Immediate => 1
  | .Absolute => 2
  | .ZeroPage => 1
  | .Relative => 1
  | .AbsoluteIndirect => 2
  | .AbsoluteIndirectWithX => 2
  | .AbsoluteIndirectWithY => 2
  | .ZeroPageIndexedWithX => 1
  | .ZeroPageIndexedWithY => 1
  | .ZeroPageIndexedIndirect => 1
  | .ZeroPageIndirectIndexedWithY => 1

set_option maxHeartbeats 3200000 in
/-- cpu/instructions.rs match_instruction: the full 256-entry opcode
decoder, a literal transcription of the Rust match. -/
def match_instruction (opcode : Nat) : Instruction :=
  match opcode with
  | 0xA9 => .Official .LDA .Immediate
  | 0xA5 => .Official .LDA .ZeroPage
  | 0xB5 => .Official .LDA .ZeroPageIndexedWithX
  | 0xAD => .Official .LDA .Absolute
  | 0xBD => .Official .LDA .AbsoluteIndirectWithX
  | 0xB9 => .Official .LDA .AbsoluteIndirectWithY
  | 0xA1 => .Official .LDA .ZeroPageIndexedIndirect
  | 0xB1 => .Official .LDA .ZeroPageIndirectIndexedWithY
  | 0x78 => .Official .SEI .Implied
  | 0xD8 => .Official .CLD .Implied
  | 0x00 => .Official .BRK .Implied
  | 0x8D => .Official .STA .Absolute
  | 0x9D => .Official .STA .AbsoluteIndirectWithX
  | 0x99 => .Official .STA .AbsoluteIndirectWithY
  | 0x85 => .Official .STA .ZeroPage
  | 0x81 => .Official .STA .ZeroPageIndexedIndirect
  | 0x95 => .Official .STA .ZeroPageIndexedWithX
  | 0x91 => .Official .STA .ZeroPageIndirectIndexedWithY
  | 0xEE => .Official .INC .Absolute
  | 0xFE => .Official .INC .AbsoluteIndirectWithX
  | 0xE6 => .Official .INC .ZeroPage
  | 0xF6 => .Official .INC .ZeroPageIndexedWithX
  | 0xAE => .Official .LDX .Absolute
  | 0xBE => .Official .LDX .AbsoluteIndirectWithY
  | 0xA2 => .Official .LDX .Immediate
  | 0xA6 => .Official .LDX .ZeroPage
  | 0xB6 => .Official .LDX .ZeroPageIndexedWithY
  | 0x9A => .Official .TXS .Implied
  | 0x29 => .Official .AND .Immediate
  | 0x25 => .Official .AND .ZeroPage
  | 0x35 => .Official .AND .ZeroPageIndexedWithX
  | 0x2D => .Official .AND .Absolute
  | 0x3D => .Official .AND .AbsoluteIndirectWithX
  | 0x39 => .Official .AND .AbsoluteIndirectWithY
  | 0x21 => .Official .AND .ZeroPageIndexedIndirect
  | 0x31 => .Official .AND .ZeroPageIndirectIndexedWithY
  | 0xF0 => .Official .BEQ .Relative
  | 0xEC => .Official .CPX .Absolute
  | 0xE0 => .Official .CPX .Immediate
  | 0xE4 => .Official .CPX .ZeroPage
  | 0x88 => .Official .DEY .Implied
  | 0x10 => .Official .BPL .Relative
  | 0x68 => .Official .PLA .Implied
  | 0xA8 => .Official .TAY .Implied
  | 0xCC => .Official .CPY .Absolute
  | 0xC0 => .Official .CPY .Immediate
  | 0xC4 => .Official .CPY .ZeroPage
  | 0xD0 => .Official .BNE .Relative
  | 0x60 => .Official .RTS .Implied
  | 0x4C => .Official .JMP .Absolute
  | 0x6C => .Official .JMP .AbsoluteIndirect
  | 0x8E => .Official .STX .Absolute
  | 0x86 => .Official .STX .ZeroPage
  | 0x96 => .Official .STX .ZeroPageIndexedWithY
  | 0x20 => .Official .JSR .Absolute
  | 0xEA => .Official .NOP .Implied
  | 0x38 => .Official .SEC .Implied
  | 0xB0 => .Official .BCS .Relative
  | 0x18 => .Official .CLC .Implied
  | 0x90 => .Official .BCC .Relative
  | 0x08 => .Official .PHP .Implied
  | 0x2C => .Official .BIT .Absolute
  | 0x89 => .Official .BIT .Immediate
  | 0x24 => .Official .BIT .ZeroPage
  | 0x70 => .Official .BVS .Relative
  | 0x50 => .Official .BVC .Relative
  | 0xAC => .Official .LDY .Absolute
  | 0xBC => .Official .LDY .AbsoluteIndirectWithX
  | 0xA0 => .Official .LDY .Immediate
  | 0xA4 => .Official .LDY .ZeroPage
  | 0xB4 => .Official .LDY .ZeroPageIndexedWithX
  | 0x0E => .Official .ASL .Absolute
  | 0x1E => .Official .ASL .AbsoluteIndirectWithX
  | 0x0A => .Official .ASL .Accumulator
  | 0x06 => .Official .ASL .ZeroPage
  | 0x16 => .Official .ASL .ZeroPageIndexedWithX
  | 0x40 => .Official .RTI .Implied
  | 0xED => .Official .SBC .Absolute
  | 0xFD => .Official .SBC .AbsoluteIndirectWithX
  | 0xF9 => .Official .SBC .AbsoluteIndirectWithY
  | 0xE9 => .Official .SBC .Immediate
  | 0xE5 => .Official .SBC .ZeroPage
  | 0xE1 => .Official .SBC .ZeroPageIndexedIndirect
  | 0xF5 => .Official .SBC .ZeroPageIndexedWithX
  | 0xF1 => .Official .SBC .ZeroPageIndirectIndexedWithY
  | 0xF8 => .Official .SED .Implied
  | 0xCD => .Official .CMP .Absolute
  | 0xDD => .Official .CMP .AbsoluteIndirectWithX
  | 0xD9 => .Official .CMP .AbsoluteIndirectWithY
  | 0xC9 => .Official .CMP .Immediate
  | 0xC5 => .Official .CMP .ZeroPage
  | 0xC1 => .Official .CMP .ZeroPageIndexedIndirect
  | 0xD5 => .Official .CMP .ZeroPageIndexedWithX
  | 0xD1 => .Official .CMP .ZeroPageIndirectIndexedWithY
  | 0x48 => .Official .PHA .Implied
  | 0x28 => .Official .PLP .Implied
  | 0x30 => .Official .BMI .Relative
  | 0x0D => .Official .ORA .Absolute
  | 0x1D => .Official .ORA .AbsoluteIndirectWithX
  | 0x19 => .Official .ORA .AbsoluteIndirectWithY
  | 0x09 => .Official .ORA .Immediate
  | 0x05 => .Official .ORA .ZeroPage
  | 0x01 => .Official .ORA .ZeroPageIndexedIndirect
  | 0x15 => .Official .ORA .ZeroPageIndexedWithX
  | 0x11 => .Official .ORA .ZeroPageIndirectIndexedWithY
  | 0xB8 => .Official .CLV .Implied
  | 0x4D => .Official .EOR .Absolute
  | 0x5D => .Official .EOR .AbsoluteIndirectWithX
  | 0x59 => .Official .EOR .AbsoluteIndirectWithY
  | 0x49 => .Official .EOR .Immediate
  | 0x45 => .Official .EOR .ZeroPage
  | 0x41 => .Official .EOR .ZeroPageIndexedIndirect
  | 0x55 => .Official .EOR .ZeroPageIndexedWithX
  | 0x51 => .Official .EOR .ZeroPageIndirectIndexedWithY
  | 0x6D => .Official .ADC .Absolute
  | 0x7D => .Official .ADC .AbsoluteIndirectWithX
  | 0x79 => .Official .ADC .AbsoluteIndirectWithY
  | 0x69 => .Official .ADC .Immediate
  | 0x65 => .Official .ADC .ZeroPage
  | 0x61 => .Official .ADC .ZeroPageIndexedIndirect
  | 0x75 => .Official .ADC .ZeroPageIndexedWithX
  | 0x71 => .Official .ADC .ZeroPageIndirectIndexedWithY
  | 0x8C => .Official .STY .Absolute
  | 0x84 => .Official .STY .ZeroPage
  | 0x94 => .Official .STY .ZeroPageIndexedWithX
  | 0xC8 => .Official .INY .Implied
  | 0xE8 => .Official .INX .Implied
  | 0xAA => .Official .TAX .Implied
  | 0x98 => .Official .TYA .Implied
  | 0x8A => .Official .TXA .Implied
  | 0xBA => .Official .TSX .Implied
  | 0xCA => .Official .DEX .Implied
  | 0x4A => .Official .LSR .Accumulator
  | 0x46 => .Official .LSR .ZeroPage
  | 0x56 => .Official .LSR .ZeroPageIndexedWithX
  | 0x4E => .Official .LSR .Absolute
  | 0x5E => .Official .LSR .AbsoluteIndirectWithX
  | 0x6A => .Official .ROR .Accumulator
  | 0x66 => .Official .ROR .ZeroPage
  | 0x76 => .Official .ROR .ZeroPageIndexedWithX
  | 0x6E => .Official .ROR .Absolute
  | 0x7E => .Official .ROR .AbsoluteIndirectWithX
  | 0x2A => .Official .ROL .Accumulator
  | 0x26 => .Official .ROL .ZeroPage
  | 0x36 => .Official .ROL .ZeroPageIndexedWithX
  | 0x2E => .Official .ROL .Absolute
  | 0x3E => .Official .ROL .AbsoluteIndirectWithX
  | 0xC6 => .Official .DEC .ZeroPage
  | 0xD6 => .Official .DEC .ZeroPageIndexedWithX
  | 0xCE => .Official .DEC .Absolute
  | 0xDE => .Official .DEC .AbsoluteIndirectWithX
  | 0x04 => .Unofficial .NOP .ZeroPage
  | 0x44 => .Unofficial .NOP .ZeroPage
  | 0x64 => .Unofficial .NOP .ZeroPage
  | 0x0C => .Unofficial .NOP .Absolute
  | 0x14 => .Unofficial .NOP .ZeroPageIndexedWithX
  | 0x34 => .Unofficial .NOP .ZeroPageIndexedWithX
  | 0x54 => .Unofficial .NOP .ZeroPageIndexedWithX
  | 0x74 => .Unofficial .NOP .ZeroPageIndexedWithX
  | 0xD4 => .Unofficial .NOP .ZeroPageIndexedWithX
  | 0xF4 => .Unofficial .NOP .ZeroPageIndexedWithX
  | 0x1A => .Unofficial .NOP .Implied
  | 0x3A => .Unofficial .NOP .Implied
  | 0x5A => .Unofficial .NOP .Implied
  | 0x7A => .Unofficial .NOP .Implied
  | 0xDA => .Unofficial .NOP .Implied
  | 0xFA => .Unofficial .NOP .Implied
  | 0x80 => .Unofficial .NOP .Immediate
  | 0x1C => .Unofficial .NOP .AbsoluteIndirectWithX
  | 0x3C => .Unofficial .NOP .AbsoluteIndirectWithX
  | 0x5C => .Unofficial .NOP .AbsoluteIndirectWithX
  | 0x7C => .Unofficial .NOP .AbsoluteIndirectWithX
  | 0xDC => .Unofficial .NOP .AbsoluteIndirectWithX
  | 0xFC => .Unofficial .NOP .AbsoluteIndirectWithX
  | 0xA3 => .Unofficial .LAX .ZeroPageIndexedIndirect
  | 0xA7 => .Unofficial .LAX .ZeroPage
  | 0xAF => .Unofficial .LAX .Absolute
  | 0xB3 => .Unofficial .LAX .ZeroPageIndirectIndexedWithY
  | 0xB7 => .Unofficial .LAX .ZeroPageIndexedWithY
  | 0xBF => .Unofficial .LAX .AbsoluteIndirectWithY
  | 0x83 => .Unofficial .SAX .ZeroPageIndexedIndirect
  | 0x87 => .Unofficial .SAX .ZeroPage
  | 0x8F => .Unofficial .SAX .Absolute
  | 0x97 => .Unofficial .SAX .ZeroPageIndexedWithY
  | 0xEB => .Unofficial .SBC .Immediate
  | 0xC3 => .Unofficial .DCP .ZeroPageIndexedIndirect
  | 0xC7 => .Unofficial .DCP .ZeroPage
  | 0xCF => .Unofficial .DCP .Absolute
  | 0xDF => .Unofficial .DCP .AbsoluteIndirectWithX
  | 0xDB => .Unofficial .DCP .AbsoluteIndirectWithY
  | 0xD7 => .Unofficial .DCP .ZeroPageIndexedWithX
  | 0xD3 => .Unofficial .DCP .ZeroPageIndirectIndexedWithY
  | 0xE3 => .Unofficial .ISB .ZeroPageIndexedIndirect
  | 0xE7 => .Unofficial .ISB .ZeroPage
  | 0xEF => .Unofficial .ISB .Absolute
  | 0xF3 => .Unofficial .ISB .ZeroPageIndirectIndexedWithY
  | 0xF7 => .Unofficial .ISB .ZeroPageIndexedWithX
  | 0xFB => .Unofficial .ISB .AbsoluteIndirectWithY
  | 0xFF => .Unofficial .ISB .AbsoluteIndirectWithX
  | 0x03 => .Unofficial .SLO .ZeroPageIndexedIndirect
  | 0x07 => .Unofficial .SLO .ZeroPage
  | 0x0F => .Unofficial .SLO .Absolute
  | 0x17 => .Unofficial .SLO .ZeroPageIndexedWithX
  | 0x1F => .Unofficial .SLO .AbsoluteIndirectWithX
  | 0x1B => .Unofficial .SLO .AbsoluteIndirectWithY
  | 0x13 => .Unofficial .SLO .ZeroPageIndirectIndexedWithY
  | 0x27 => .Unofficial .RLA .ZeroPage
  | 0x37 => .Unofficial .RLA .ZeroPageIndexedWithX
  | 0x2F => .Unofficial .RLA .Absolute
  | 0x3F => .Unofficial .RLA .AbsoluteIndirectWithX
  | 0x3B => .Unofficial .RLA .AbsoluteIndirectWithY
  | 0x23 => .Unofficial .RLA .ZeroPageIndexedIndirect
  | 0x33 => .Unofficial .RLA .ZeroPageIndirectIndexedWithY
  | 0x47 => .Unofficial .SRE .ZeroPage
  | 0x57 => .Unofficial .SRE .ZeroPageIndexedWithX
  | 0x4F => .Unofficial .SRE .Absolute
  | 0x5F => .Unofficial .SRE .AbsoluteIndirectWithX
  | 0x5B => .Unofficial .SRE .AbsoluteIndirectWithY
  | 0x43 => .Unofficial .SRE .ZeroPageIndexedIndirect
  | 0x53 => .Unofficial .SRE .ZeroPageIndirectIndexedWithY
  | 0x67 => .Unofficial .RRA .ZeroPage
  | 0x77 => .Unofficial .RRA .ZeroPageIndexedWithX
  | 0x6F => .Unofficial .RRA .Absolute
  | 0x7F => .Unofficial .RRA .AbsoluteIndirectWithX
  | 0x7B => .Unofficial .RRA .AbsoluteIndirectWithY
  | 0x63 => .Unofficial .RRA .ZeroPageIndexedIndirect
  | 0x73 => .Unofficial .RRA .ZeroPageIndirectIndexedWithY
  | _ => .Unknown

/-- cpu/utils.rs get_cycles: the static cycle table keyed by instruction
and addressing mode, with the page-cross bonus where the source adds it;
none models the unreachable fall-through arm. -/
def get_cycles (instruction : InstructionName) (addressing_mode : AddressingMode)
    (page_crossed : Bool) (branches : Bool) : Option Nat :=
  let page_cross := if page_crossed then 1 else 0
  match instruction, addressing_mode with
  | .SEI, .Implied => some 2
  | .CLD, .Implied => some 2
  | .LDA, .Immediate => some 2
  | .LDA, .Absolute => some 4
  | .LDA, .ZeroPage => some 3
  | .LDA, .AbsoluteIndirectWithX => some (4 + page_cross)
  | .LDA, .AbsoluteIndirectWithY => some (4 + page_cross)
  | .LDA, .ZeroPageIndexedWithX => some 4
  | .LDA, .ZeroPageIndexedIndirect => some 6
  | .LDA, .ZeroPageIndirectIndexedWithY => some (5 + page_cross)
  | .BRK, .Implied => some 7
  | .STA, .Absolute => some 4
  | .STA, .ZeroPage => some 3
  | .STA, .AbsoluteIndirectWithX => some 5
  | .STA, .AbsoluteIndirectWithY => some 5
  | .STA, .ZeroPageIndexedWithX => some 4
  | .STA, .ZeroPageIndexedIndirect => some 6
  | .STA, .ZeroPageIndirectIndexedWithY => some 6
  | .INC, .Absolute => some 6
  | .INC, .ZeroPage => some 5
  | .INC, .AbsoluteIndirectWithX => some 7
  | .INC, .ZeroPageIndexedWithX => some 6
  | .LDX, .Immediate => some 2
  | .LDX, .Absolute => some 4
  | .LDX, .ZeroPage => some 3
  | .LDX, .AbsoluteIndirectWithY => some (4 + page_cross)
  | .LDX, .ZeroPageIndexedWithY => some 4
  | .TXS, .Implied => some 2
  | .AND, .Immediate => some 2
  | .AND, .Absolute => some 4
  | .AND, .ZeroPage => some 3
  | .AND, .AbsoluteIndirectWithX => some (4 + page_cross)
  | .AND, .AbsoluteIndirectWithY => some (4 + page_cross)
  | .AND, .ZeroPageIndexedWithX => some 4
  | .AND, .ZeroPageIndexedIndirect => some 6
  | .AND, .ZeroPageIndirectIndexedWithY => some (5 + page_cross)
  | .BEQ, .Relative =>
      some (2 + if branches then (if page_crossed then 2 else 1) else 0)
  | .CPX, .Immediate => some 2
  | .CPX, .Absolute => some 4
  | .CPX, .ZeroPage => some 3
  | .DEY, .Implied => some 2
  | .BPL, .Relative =>
      some (2 + if branches then (if page_crossed then 2 else 1) else 0)
  | .PLA, .Implied => some 4
  | .TAY, .Implied => some 2
  | .CPY, .Immediate => some 2
  | .CPY, .Absolute => some 4
  | .CPY, .ZeroPage => some 3
  | .BNE, .Relative =>
      some (2 + if branches then (if page_crossed then 2 else 1) else 0)
  | .RTS, .Implied => some 6
  | .JMP, .Absolute => some 3
  | .JMP, .AbsoluteIndirect => some 5
  | .STX, .Absolute => some 4
  | .STX, .ZeroPage => some 3
  | .STX, .ZeroPageIndexedWithY => some 4
  | .JSR, .Absolute => some 6
  | .NOP, .Implied => some 2
  | .NOP, .Immediate => some 2
  | .NOP, .Absolute => some 4
  | .NOP, .AbsoluteIndirectWithX => some (4 + page_cross)
  | .NOP, .ZeroPage => some 3
  | .NOP, .ZeroPageIndexedWithX => some (4 + page_cross)
  | .SEC, .Implied => some 2
  | .BCS, .Relative =>
      some (2 + if branches then (if page_crossed then 2 else 1) else 0)
  | .CLC, .Implied => some 2
  | .BCC, .Relative =>
      some (2 + if branches then (if page_crossed then 2 else 1) else 0)
  | .PHP, .Implied => some 3
  | .BIT, .Absolute => some 4
  | .BIT, .ZeroPage => some 3
  | .BVS, .Relative =>
      some (2 + if branches then (if page_crossed then 2 else 1) else 0)
  | .BVC, .Relative =>
      some (2 + if branches then (if page_crossed then 2 else 1) else 0)
  | .LDY, .Immediate => some 2
  | .LDY, .Absolute => some 4
  | .LDY, .ZeroPage => some 3
  | .LDY, .AbsoluteIndirectWithX => some (4 + page_cross)
  | .LDY, .ZeroPageIndexedWithX => some 4
  | .ASL, .Accumulator => some 2
  | .ASL, .Absolute => some 6
  | .ASL, .ZeroPage => some 5
  | .ASL, .AbsoluteIndirectWithX => some 7
  | .ASL, .ZeroPageIndexedWithX => some 6
  | .RTI, .Implied => some 6
  | .SBC, .Immediate => some 2
  | .SBC, .Absolute => some 4
  | .SBC, .ZeroPage => some 3
  | .SBC, .AbsoluteIndirectWithX => some (4 + page_cross)
  | .SBC, .AbsoluteIndirectWithY => some (4 + page_cross)
  | .SBC, .ZeroPageIndexedWithX => some 4
  | .SBC, .ZeroPageIndexedIndirect => some 6
  | .SBC, .ZeroPageIndirectIndexedWithY => some (5 + page_cross)
  | .SED, .Implied => some 2
  | .CMP, .Immediate => some 2
  | .CMP, .Absolute => some 4
  | .CMP, .ZeroPage => some 3
  | .CMP, .AbsoluteIndirectWithX => some (4 + page_cross)
  | .CMP, .AbsoluteIndirectWithY => some (4 + page_cross)
  | .CMP, .ZeroPageIndexedWithX => some 4
  | .CMP, .ZeroPageIndexedIndirect => some 6
  | .CMP, .ZeroPageIndirectIndexedWithY => some (5 + page_cross)
  | .PHA, .Implied => some 3
  | .PLP, .Implied => some 4
  | .BMI, .Relative =>
      some (2 + if branches then (if page_crossed then 2 else 1) else 0)
  | .ORA, .Immediate => some 2
  | .ORA, .Absolute => some 4
  | .ORA, .ZeroPage => some 3
  | .ORA, .AbsoluteIndirectWithX => some (4 + page_cross)
  | .ORA, .AbsoluteIndirectWithY => some (4 + page_cross)
  | .ORA, .ZeroPageIndexedWithX => some 4
  | .ORA, .ZeroPageIndexedIndirect => some 6
  | .ORA, .ZeroPageIndirectIndexedWithY => some (5 + page_cross)
  | .CLV, .Implied => some 2
  | .EOR, .Immediate => some 2
  | .EOR, .Absolute => some 4
  | .EOR, .ZeroPage => some 3
  | .EOR, .AbsoluteIndirectWithX => some (4 + page_cross)
  | .EOR, .AbsoluteIndirectWithY => some (4 + page_cross)
  | .EOR, .ZeroPageIndexedWithX => some 4
  | .EOR, .ZeroPageIndexedIndirect => some 6
  | .EOR, .ZeroPageIndirectIndexedWithY => some (5 + page_cross)
  | .ADC, .Immediate => some 2
  | .ADC, .Absolute => some 4
  | .ADC, .ZeroPage => some 3
  | .ADC, .AbsoluteIndirectWithX => some (4 + page_cross)
  | .ADC, .AbsoluteIndirectWithY => some (4 + page_cross)
  | .ADC, .ZeroPageIndexedWithX => some 4
  | .ADC, .ZeroPageIndexedIndirect => some 6
  | .ADC, .ZeroPageIndirectIndexedWithY => some (5 + page_cross)
  | .STY, .Absolute => some 4
  | .STY, .ZeroPage => some 3
  | .STY, .ZeroPageIndexedWithX => some 4
  | .INY, .Implied => some 2
  | .INX, .Implied => some 2
  | .TAX, .Implied => some 2
  | .TYA, .Implied => some 2
  | .TXA, .Implied => some 2
  | .TSX, .Implied => some 2
  | .DEX, .Implied => some 2
  | .LSR, .Accumulator => some 2
  | .LSR, .Absolute => some 6
  | .LSR, .ZeroPage => some 5
  | .LSR, .AbsoluteIndirectWithX => some 7
  | .LSR, .ZeroPageIndexedWithX => some 6
  | .ROR, .Accumulator => some 2
  | .ROR, .Absolute => some 6
  | .ROR, .ZeroPage => some 5
  | .ROR, .AbsoluteIndirectWithX => some 7
  | .ROR, .ZeroPageIndexedWithX => some 6
  | .ROL, .Accumulator => some 2
  | .ROL, .Absolute => some 6
  | .ROL, .ZeroPage => some 5
  | .ROL, .AbsoluteIndirectWithX => some 7
  | .ROL, .ZeroPageIndexedWithX => some 6
  | .DEC, .Absolute => some 6
  | .DEC, .ZeroPage => some 5
  | .DEC, .AbsoluteIndirectWithX => some 7
  | .DEC, .ZeroPageIndexedWithX => some 6
  | .LAX, .Immediate => some 2
  | .LAX, .Absolute => some 4
  | .LAX, .ZeroPage => some 3
  | .LAX, .AbsoluteIndirectWithY => some (4 + page_cross)
  | .LAX, .ZeroPageIndexedWithY => some 4
  | .LAX, .ZeroPageIndexedIndirect => some 6
  | .LAX, .ZeroPageIndirectIndexedWithY => some (5 + page_cross)
  | .SAX, .Absolute => some 4
  | .SAX, .ZeroPage => some 3
  | .SAX, .ZeroPageIndexedWithY => some 4
  | .SAX, .ZeroPageIndexedIndirect => some 6
  | .SAX, .ZeroPageIndirectIndexedWithY => some 6
  | .DCP, .Absolute => some 6
  | .DCP, .ZeroPage => some 5
  | .DCP, .AbsoluteIndirectWithX => some 7
  | .DCP, .AbsoluteIndirectWithY => some 7
  | .DCP, .ZeroPageIndexedWithX => some 6
  | .DCP, .ZeroPageIndexedIndirect => some 8
  | .DCP, .ZeroPageIndirectIndexedWithY => some 8
  | .ISB, .Absolute => some 6
  | .ISB, .ZeroPage => some 5
  | .ISB, .AbsoluteIndirectWithX => some 7
  | .ISB, .AbsoluteIndirectWithY => some 7
  | .ISB, .ZeroPageIndexedWithX => some 6
  | .ISB, .ZeroPageIndexedIndirect => some 8
  | .ISB, .ZeroPageIndirectIndexedWithY => some 8
  | .SLO, .Absolute => some 6
  | .SLO, .ZeroPage => some 5
  | .SLO, .AbsoluteIndirectWithX => some 7
  | .SLO, .AbsoluteIndirectWithY => some 7
  | .SLO, .ZeroPageIndexedWithX => some 6
  | .SLO, .ZeroPageIndexedIndirect => some 8
  | .SLO, .ZeroPageIndirectIndexedWithY => some 8
  | .RLA, .Absolute => some 6
  | .RLA, .ZeroPage => some 5
  | .RLA, .AbsoluteIndirectWithX => some 7
  | .RLA, .AbsoluteIndirectWithY => some 7
  | .RLA, .ZeroPageIndexedWithX => some 6
  | .RLA, .ZeroPageIndexedIndirect => some 8
  | .RLA, .ZeroPageIndirectIndexedWithY => some 8
  | .SRE, .Absolute => some 6
  | .SRE, .ZeroPage => some 5
  | .SRE, .AbsoluteIndirectWithX => some 7
  | .SRE, .AbsoluteIndirectWithY => some 7
  | .SRE, .ZeroPageIndexedWithX => some 6
  | .SRE, .ZeroPageIndexedIndirect => some 8
  | .SRE, .ZeroPageIndirectIndexedWithY => some 8
  | .RRA, .Absolute => some 6
  | .RRA, .ZeroPage => some 5
  | .RRA, .AbsoluteIndirectWithX => some 7
  | .RRA, .AbsoluteIndirectWithY => some 7
  | .RRA, .ZeroPageIndexedWithX => some 6
  | .RRA, .ZeroPageIndexedIndirect => some 8
  | .RRA, .ZeroPageIndirectIndexedWithY => some 8
  | _, _ => none

/-- cpu/utils.rs apply_addressing: resolves an addressing mode to an
operand address, including the AbsoluteIndirect page-boundary hardware
bug and the 8-bit wrapping adds on all zero-page indexed forms. -/
def apply_addressing (memory : Memory) (registers : Registers)
    (adressing_mode : AddressingMode) (low_byte high_byte : Nat) : Option Nat :=
  let memory := memory.mem
  match adressing_mode with
  | .Accumulator => none
  | .Implied => none
  | .Immediate => some low_byte
  | .Absolute => some (address_from_bytes low_byte high_byte)
  | .ZeroPage => some low_byte
  | .Relative => some low_byte
  | .AbsoluteIndirect =>
      let addr := address_from_bytes low_byte high_byte
      if low_byte = 0xFF then
        let addr2 := address_from_bytes 0x0 high_byte
        some (address_from_bytes (memory addr) (memory addr2))
      else
        let addr2 := addr + 1
        some (address_from_bytes (memory addr) (memory addr2))
  | .AbsoluteIndirectWithX =>
      some ((address_from_bytes low_byte high_byte + registers.x) % 0x10000)
  | .AbsoluteIndirectWithY =>
      some ((address_from_bytes low_byte high_byte + registers.y) % 0x10000)
  | .ZeroPageIndexedWithX =>
      some ((low_byte + registers.x) % 0x100)
  | .ZeroPageIndexedWithY =>
      some ((low_byte + registers.y) % 0x100)
  | .ZeroPageIndexedIndirect =>
      let base := (low_byte + registers.x) % 0x100
      let addr := memory base
      let addr2 := memory ((base + 1) % 0x100)
      some (address_from_bytes addr addr2)
  | .ZeroPageIndirectIndexedWithY =>
      let addr := low_byte
      let low_byte2 := memory addr
      let high_byte2 := memory ((addr + 1) % 0x100)
      some ((address_from_bytes low_byte2 high_byte2 + registers.y) % 0x10000)

/-- Reinterpret a u16 bit pattern as an i16 value (the Rust `as i16`
cast from u16). -/
def i16_of_u16 (n : Nat) : Int :=
  if n < 0x8000 then (n : Int) else (n : Int) - 0x10000

/-- Two-complement wrap of an Int into the i16 range, the result of an
i16 arithmetic operation under release-profile (wrapping) semantics. -/
def wrap_i16 (z : Int) : Int :=
  (z + 0x8000) % 0x10000 - 0x8000

/-- Truncating cast of an i16 value to u16 (the Rust `as u16`). -/
def u16_of_int (z : Int) : Nat :=
  (z % 0x10000).toNat

/-- Truncating cast of an i16 value to u8 (the Rust `as u8`). -/
def u8_of_int (z : Int) : Nat :=
  (z % 0x100).toNat

/-- instructions.rs sei: status |= 0b00000100. -/
def sei (registers : Registers) : Registers :=
  { registers with status := registers.status ||| 0b00000100 }

/-- instructions.rs cld: status &= 0b11110111. -/
def cld (registers : Registers) : Registers :=
  { registers with status := registers.status &&& 0b11110111 }

/-- instructions.rs lda: load the accumulator, set Z and N. -/
def lda (registers : Registers) (operand : Nat) : Registers :=
  let registers := { registers with a := operand }
  let registers := registers.set_flag .Z (registers.a == 0)
  registers.set_flag .N (registers.a ≥ 0x80)

/-- instructions.rs brk: push pc+1 high then low then the status byte
with B and Unused forced, set I, load pc from the break vector. -/
def brk (registers : Registers) (memory : Memory) : Registers × Memory :=
  let registers := { registers with pc := (registers.pc + 1) % 0x10000 }
  let memory := memory.stack_push ((registers.pc >>> 8) &&& 0xFF)
  let memory := memory.stack_push (registers.pc &&& 0xFF)
  let registers := registers.set_flag .B true
  let registers := registers.set_flag .Unused true
  let memory := memory.stack_push registers.status
  let registers := registers.set_flag .I true
  let registers := { registers with
    pc := address_from_bytes (memory.mem BREAK_VECTOR_ADDDRESS)
      (memory.mem (BREAK_VECTOR_ADDDRESS + 1)) }
  (registers, memory)

/-- instructions.rs sta. -/
def sta (registers : Registers) (memory : Memory) (addr : Nat) : Memory :=
  { memory with mem := writeMem memory.mem addr registers.a }

/-- instructions.rs inc: increment memory with an explicit 0xFF guard,
then set Z and N through raw status masks. -/
def inc (registers : Registers) (memory : Memory) (addr : Nat) : Registers × Memory :=
  let operand := memory.mem addr
  let memory := { memory with
    mem := writeMem memory.mem addr (if operand = 0xFF then 0 else operand + 1) }
  let operand := memory.mem addr
  let registers := { registers with status :=
    if operand = 0 then registers.status ||| 0b00000010
    else registers.status &&& 0b11111101 }
  let registers := { registers with status :=
    if operand ≥ 0x80 then registers.status ||| 0b10000000
    else registers.status &&& 0b01111111 }
  (registers, memory)

/-- instructions.rs ldx: x = addr as u8, set Z and N. -/
def ldx (registers : Registers) (addr : Nat) : Registers :=
  let registers := { registers with x := addr % 0x100 }
  let registers := registers.set_flag .Z (registers.x == 0)
  registers.set_flag .N (registers.x ≥ 0x80)

/-- instructions.rs txs: stack_pointer = x as u16. -/
def txs (registers : Registers) (memory : Memory) : Memory :=
  { memory with stack_pointer := registers.x }

/-- instructions.rs and: a &= value, set Z and N. -/
def and (registers : Registers) (value : Nat) : Registers :=
  let registers := { registers with a := registers.a &&& value }
  let registers := registers.set_flag .Z (registers.a == 0)
  registers.set_flag .N (registers.a ≥ 0x80)

/-- instructions.rs and_acc: a &= a, set Z and N. -/
def and_acc (registers : Registers) : Registers :=
  let registers := { registers with a := registers.a &&& registers.a }
  let registers := registers.set_flag .Z (registers.a == 0)
  registers.set_flag .N (registers.a ≥ 0x80)

/-- The shared body of the branch instructions: on a taken branch the pc
becomes 1 + (pc as i16 + displacement) as u16, with the displacement
sign-interpreted when the operand byte is at least 0x80. -/
def branch_taken_pc (pc value : Nat) : Nat :=
  if value ≥ 0x80 then
    let value2 := wrap_i16 ((value : Int) - (1 <<< 8))
    (1 + u16_of_int (wrap_i16 (i16_of_u16 pc + value2))) % 0x10000
  else
    (1 + u16_of_int (wrap_i16 (i16_of_u16 pc + i16_of_u16 value))) % 0x10000

/-- instructions.rs beq: branch when Z is set. -/
def beq (registers : Registers) (value : Nat) : Registers × Bool :=
  if registers.is_flag_set .Z then
    ({ registers with pc := branch_taken_pc registers.pc value }, true)
  else
    (registers, false)

/-- instructions.rs bne: branch when Z is clear. -/
def bne (registers : Registers) (value : Nat) : Registers × Bool :=
  if !registers.is_flag_set .Z then
    ({ registers with pc := branch_taken_pc registers.pc value }, true)
  else
    (registers, false)

/-- instructions.rs bpl: branch when N is clear. -/
def bpl (registers : Registers) (value : Nat) : Registers × Bool :=
  if !registers.is_flag_set .N then
    ({ registers with pc := branch_taken_pc registers.pc value }, true)
  else
    (registers, false)

/-- instructions.rs bmi: branch when N is set. -/
def bmi (registers : Registers) (addr : Nat) : Registers × Bool :=
  if registers.is_flag_set .N then
    ({ registers with pc := branch_taken_pc registers.pc addr }, true)
  else
    (registers, false)

/-- instructions.rs bcs: branch when C is set. -/
def bcs (registers : Registers) (addr : Nat) : Registers × Bool :=
  if registers.is_flag_set .C then
    ({ registers with pc := branch_taken_pc registers.pc addr }, true)
  else
    (registers, false)

/-- instructions.rs bcc: branch when C is clear. -/
def bcc (registers : Registers) (addr : Nat) : Registers × Bool :=
  if !registers.is_flag_set .C then
    ({ registers with pc := branch_taken_pc registers.pc addr }, true)
  else
    (registers, false)

/-- instructions.rs bvs: branch when V is set. -/
def bvs (registers : Registers) (addr : Nat) : Registers × Bool :=
  if registers.is_flag_set .V then
    ({ registers with pc := branch_taken_pc registers.pc addr }, true)
  else
    (registers, false)

/-- instructions.rs bvc: branch when V is clear. -/
def bvc (registers : Registers) (addr : Nat) : Registers × Bool :=
  if !registers.is_flag_set .V then
    ({ registers with pc := branch_taken_pc registers.pc addr }, true)
  else
    (registers, false)

/-- instructions.rs cpx: compare x with a value; C and Z from the
ordering, N from bit 7 of the 8-bit wrapped subtraction. -/
def cpx (registers : Registers) (value : Nat) : Registers :=
  let registers := registers.set_flag .C false
  let registers := registers.set_flag .Z false
  let registers :=
    if registers.x < value then registers
    else if registers.x = value then
      (registers.set_flag .C true).set_flag .Z true
    else registers.set_flag .C true
  let res :=
    if value ≥ 0x80 then
      let value2 := wrap_i16 ((value : Int) - (1 <<< 8))
      u8_of_int (wrap_i16 ((registers.x : Int) - value2))
    else
      u8_of_int (wrap_i16 ((registers.x : Int) - (value : Int)))
  registers.set_flag .N (res ≥ 0x80)

/-- instructions.rs cpy: compare y with a value. -/
def cpy (registers : Registers) (value : Nat) : Registers :=
  let registers := registers.set_flag .C false
  let registers := registers.set_flag .Z false
  let registers :=
    if registers.y < value then registers
    else if registers.y = value then
      (registers.set_flag .C true).set_flag .Z true
    else registers.set_flag .C true
  let res :=
    if value ≥ 0x80 then
      let value2 := wrap_i16 ((value : Int) - (1 <<< 8))
      u8_of_int (wrap_i16 ((registers.y : Int) - value2))
    else
      u8_of_int (wrap_i16 ((registers.y : Int) - (value : Int)))
  registers.set_flag .N (res ≥ 0x80)

/-- instructions.rs cmp: compare a with a value; also clears N first. -/
def cmp (registers : Registers) (value : Nat) : Registers :=
  let registers := registers.set_flag .N false
  let registers := registers.set_flag .C false
  let registers := registers.set_flag .Z false
  let registers :=
    if registers.a < value then registers
    else if registers.a = value then
      (registers.set_flag .C true).set_flag .Z true
    else registers.set_flag .C true
  let res :=
    if value ≥ 0x80 then
      let value2 := wrap_i16 ((value : Int) - (1 <<< 8))
      u8_of_int (wrap_i16 ((registers.a : Int) - value2))
    else
      u8_of_int (wrap_i16 ((registers.a : Int) - (value : Int)))
  registers.set_flag .N (res ≥ 0x80)

/-- instructions.rs dey: y = (y as i16 - 1) as u8, raw status masks. -/
def dey (registers : Registers) : Registers :=
  let registers := { registers with y := u8_of_int (wrap_i16 ((registers.y : Int) - 1)) }
  let registers := { registers with status :=
    if registers.y = 0 then registers.status ||| 0b00000010
    else registers.status &&& 0b11111101 }
  { registers with status :=
    if registers.y ≥ 0x80 then registers.status ||| 0b10000000
    else registers.status &&& 0b01111111 }

/-- instructions.rs dex: x = (x as i16 - 1) as u8, set Z and N. -/
def dex (registers : Registers) : Registers :=
  let registers := { registers with x := u8_of_int (wrap_i16 ((registers.x : Int) - 1)) }
  let registers := registers.set_flag .Z (registers.x == 0)
  registers.set_flag .N (registers.x ≥ 0x80)

/-- instructions.rs pla: pop into a, set Z and N. -/
def pla (registers : Registers) (memory : Memory) : Registers × Memory :=
  let (val, memory) := memory.stack_pop
  let registers := { registers with a := val }
  let registers := registers.set_flag .Z (registers.a == 0)
  (registers.set_flag .N (registers.a ≥ 0x80), memory)

/-- instructions.rs tay: y = a, flags from a. -/
def tay (registers : Registers) : Registers :=
  let registers := { registers with y := registers.a }
  let registers := registers.set_flag .Z (registers.a == 0)
  registers.set_flag .N (registers.a ≥ 0x80)

/-- instructions.rs rts: pop pc low then high, pc = addr, pc += 1. -/
def rts (registers : Registers) (memory : Memory) : Registers × Memory :=
  let (low, memory) := memory.stack_pop
  let (high, memory) := memory.stack_pop
  let addr := address_from_bytes low high
  let registers := { registers with pc := addr }
  ({ registers with pc := (registers.pc + 1) % 0x10000 }, memory)

/-- instructions.rs jmp: pc = addr. -/
def jmp (registers : Registers) (addr : Nat) : Registers :=
  { registers with pc := addr }

/-- instructions.rs stx. -/
def stx (registers : Registers) (memory : Memory) (addr : Nat) : Memory :=
  { memory with mem := writeMem memory.mem addr registers.x }

/-- instructions.rs jsr: pc += 1, push pc high then low, pc = addr. -/
def jsr (registers : Registers) (memory : Memory) (addr : Nat) : Registers × Memory :=
  let registers := { registers with pc := (registers.pc + 1) % 0x10000 }
  let memory := memory.stack_push ((registers.pc >>> 8) &&& 0xFF)
  let memory := memory.stack_push (registers.pc &&& 0xFF)
  ({ registers with pc := addr }, memory)

/-- instructions.rs nop. -/
def nop : Unit := ()

/-- instructions.rs sec: status |= 0x1. -/
def sec (registers : Registers) : Registers :=
  { registers with status := registers.status ||| 0x1 }

/-- instructions.rs clc: status &= 0b11111110. -/
def clc (registers : Registers) : Registers :=
  { registers with status := registers.status &&& 0b11111110 }

/-- instructions.rs php: force B and Unused, push the status byte, then
clear B again (the Unused restore is commented out in the source). -/
def php (registers : Registers) (memory : Memory) : Registers × Memory :=
  let registers := registers.set_flag .B true
  let registers := registers.set_flag .Unused true
  let memory := memory.stack_push registers.status
  let registers := registers.set_flag .B false
  (registers, memory)

/-- instructions.rs bit: Z from a AND m, V and N copied from bits 6 and
7 of the memory byte. -/
def bit (registers : Registers) (memory : Memory) (addr : Nat) : Registers :=
  let m := memory.mem addr
  let test := registers.a &&& m
  let registers :=
    if test = 0 then registers.set_flag .Z true else registers.set_flag .Z false
  let registers := registers.set_flag .V (m &&& 0b01000000 == 0b01000000)
  registers.set_flag .N (m &&& 0b10000000 == 0b10000000)

/-- instructions.rs ldy: y = operand, set Z and N. -/
def ldy (registers : Registers) (operand : Nat) : Registers :=
  let registers := { registers with y := operand }
  let registers := registers.set_flag .Z (operand == 0)
  registers.set_flag .N (operand ≥ 0x80)

/-- instructions.rs asl: shift the memory byte left (u8 wrap), carry
from the old bit 7. -/
def asl (registers : Registers) (memory : Memory) (addr val : Nat) : Registers × Memory :=
  let m := val
  let c := (m &&& 0b10000000) == 0b10000000
  let m := (m <<< 1) % 0x100
  let memory := { memory with mem := writeMem memory.mem addr m }
  let registers := registers.set_flag .Z (m == 0)
  let registers := registers.set_flag .N (m ≥ 0x80)
  (registers.set_flag .C c, memory)

/-- instructions.rs asl_acc. -/
def asl_acc (registers : Registers) : Registers :=
  let m := registers.a
  let c := (m &&& 0b10000000) == 0b10000000
  let m := (m <<< 1) % 0x100
  let registers := { registers with a := m }
  let registers := registers.set_flag .Z (m == 0)
  let registers := registers.set_flag .N (m ≥ 0x80)
  registers.set_flag .C c

/-- instructions.rs rti: pop status, pc low, pc high; restore status but
keep the prior B and Unused bits; pc from the popped bytes. -/
def rti (registers : Registers) (memory : Memory) : Registers × Memory :=
  let (status, memory) := memory.stack_pop
  let (pc_lsb, memory) := memory.stack_pop
  let (pc_msb, memory) := memory.stack_pop
  let pc := address_from_bytes pc_lsb pc_msb
  let old_registers := registers
  let registers := { registers with status := status }
  let registers := registers.set_flag .B (old_registers.is_flag_set .B)
  let registers := registers.set_flag .Unused (old_registers.is_flag_set .Unused)
  ({ registers with pc := pc }, memory)

/-- instructions.rs adc: a + m + carry in u16, truncate to a, with the
standard two-complement overflow test for V. -/
def adc (registers : Registers) (value : Nat) : Registers :=
  let carry := if registers.is_flag_set .C then 1 else 0
  let a := registers.a
  let m := value
  let temp := a + m + carry
  let registers := { registers with a := temp % 0x100 }
  let registers := registers.set_flag .C (temp > 0xFF)
  let registers := registers.set_flag .V
    (((0xFF ^^^ (a ^^^ value)) &&& (a ^^^ (temp % 0x100)) &&& 0x80) == 0x80)
  let registers := registers.set_flag .Z (registers.a == 0)
  registers.set_flag .N (registers.a ≥ 0x80)

/-- instructions.rs sbc: adc with the operand bits complemented. -/
def sbc (registers : Registers) (value : Nat) : Registers :=
  adc registers (0xFF ^^^ value)

/-- instructions.rs sed. -/
def sed (registers : Registers) : Registers :=
  registers.set_flag .D true

/-- instructions.rs pha: push a. -/
def pha (registers : Registers) (memory : Memory) : Memory :=
  memory.stack_push registers.a

/-- instructions.rs plp: pop into status but keep the prior B and Unused
bits. -/
def plp (registers : Registers) (memory : Memory) : Registers × Memory :=
  let old_registers := registers
  let (status, memory) := memory.stack_pop
  let registers := { registers with status := status }
  let registers := registers.set_flag .B (old_registers.is_flag_set .B)
  (registers.set_flag .Unused (old_registers.is_flag_set .Unused), memory)

/-- instructions.rs ora: a |= value, set Z and N. -/
def ora (registers : Registers) (value : Nat) : Registers :=
  let registers := { registers with a := registers.a ||| value }
  let registers := registers.set_flag .Z (registers.a == 0)
  registers.set_flag .N (registers.a ≥ 0x80)

/-- instructions.rs clv. -/
def clv (registers : Registers) : Registers :=
  registers.set_flag .V false

/-- instructions.rs eor: a = a XOR value, set Z and N. -/
def eor (registers : Registers) (value : Nat) : Registers :=
  let registers := { registers with a := registers.a ^^^ value }
  let registers := registers.set_flag .Z (registers.a == 0)
  registers.set_flag .N (registers.a ≥ 0x80)

/-- instructions.rs sty. -/
def sty (registers : Registers) (memory : Memory) (addr : Nat) : Memory :=
  { memory with mem := writeMem memory.mem addr registers.y }

/-- instructions.rs iny: increment y with an explicit 0xFF guard, raw
status masks. -/
def iny (registers : Registers) : Registers :=
  let registers := { registers with y := if registers.y = 0xFF then 0 else registers.y + 1 }
  let registers := { registers with status :=
    if registers.y = 0 then registers.status ||| 0b00000010
    else registers.status &&& 0b11111101 }
  { registers with status :=
    if registers.y ≥ 0x80 then registers.status ||| 0b10000000
    else registers.status &&& 0b01111111 }

/-- instructions.rs inx: increment x with an explicit 0xFF guard, raw
status masks. -/
def inx (registers : Registers) : Registers :=
  let registers := { registers with x := if registers.x = 0xFF then 0 else registers.x + 1 }
  let registers := { registers with status :=
    if registers.x = 0 then registers.status ||| 0b00000010
    else registers.status &&& 0b11111101 }
  { registers with status :=
    if registers.x ≥ 0x80 then registers.status ||| 0b10000000
    else registers.status &&& 0b01111111 }

/-- instructions.rs tax: x = a, raw status masks. -/
def tax (registers : Registers) : Registers :=
  let registers := { registers with x := registers.a }
  let registers := { registers with status :=
    if registers.x = 0 then registers.status ||| 0b00000010
    else registers.status &&& 0b11111101 }
  { registers with status :=
    if registers.x ≥ 0x80 then registers.status ||| 0b10000000
    else registers.status &&& 0b01111111 }

/-- instructions.rs tya: a = y, raw status masks. -/
def tya (registers : Registers) : Registers :=
  let registers := { registers with a := registers.y }
  let registers := { registers with status :=
    if registers.a = 0 then registers.status ||| 0b00000010
    else registers.status &&& 0b11111101 }
  { registers with status :=
    if registers.a ≥ 0x80 then registers.status ||| 0b10000000
    else registers.status &&& 0b01111111 }

/-- instructions.rs txa: a = x, raw status masks. -/
def txa (registers : Registers) : Registers :=
  let registers := { registers with a := registers.x }
  let registers := { registers with status :=
    if registers.a = 0 then registers.status ||| 0b00000010
    else registers.status &&& 0b11111101 }
  { registers with status :=
    if registers.a ≥ 0x80 then registers.status ||| 0b10000000
    else registers.status &&& 0b01111111 }

/-- instructions.rs tsx: x = stack_pointer as u8, set Z and N. -/
def tsx (registers : Registers) (memory : Memory) : Registers :=
  let registers := { registers with x := memory.stack_pointer % 0x100 }
  let registers := registers.set_flag .Z (registers.x == 0)
  registers.set_flag .N (registers.x ≥ 0x80)

/-- instructions.rs lsr: shift the memory byte right, carry from the
old bit 0. -/
def lsr (registers : Registers) (memory : Memory) (addr : Nat) : Registers × Memory :=
  let m := memory.mem addr
  let carry := (m &&& 0b1) == 0b1
  let m := m >>> 1
  let memory := { memory with mem := writeMem memory.mem addr m }
  let registers := registers.set_flag .C carry
  let registers := registers.set_flag .Z (m == 0)
  (registers.set_flag .N (m ≥ 0x80), memory)

/-- instructions.rs lsr_acc. -/
def lsr_acc (registers : Registers) : Registers :=
  let m := registers.a
  let carry := (m &&& 0b1) == 0b1
  let m := m >>> 1
  let registers := { registers with a := m }
  let registers := registers.set_flag .C carry
  let registers := registers.set_flag .Z (registers.a == 0)
  registers.set_flag .N (registers.a ≥ 0x80)

/-- instructions.rs ror: rotate the memory byte right through carry. -/
def ror (registers : Registers) (memory : Memory) (addr : Nat) : Registers × Memory :=
  let m := memory.mem addr
  let bit0 := (m &&& 0b1) == 0b1
  let m := m >>> 1
  let carry := registers.is_flag_set .C
  let m := m ||| (if carry then 1 <<< 7 else 0)
  let memory := { memory with mem := writeMem memory.mem addr m }
  let registers := registers.set_flag .C bit0
  let registers := registers.set_flag .Z (m == 0)
  (registers.set_flag .N (m ≥ 0x80), memory)

/-- instructions.rs ror_acc. -/
def ror_acc (registers : Registers) : Registers :=
  let m := registers.a
  let bit0 := (m &&& 0b1) == 0b1
  let m := m >>> 1
  let carry := registers.is_flag_set .C
  let m := m ||| (if carry then 1 <<< 7 else 0)
  let registers := { registers with a := m }
  let registers := registers.set_flag .C bit0
  let registers := registers.set_flag .Z (registers.a == 0)
  registers.set_flag .N (registers.a ≥ 0x80)

/-- instructions.rs rol: rotate the value left through carry into the
memory byte. -/
def rol (registers : Registers) (memory : Memory) (addr value : Nat) : Registers × Memory :=
  let m := value
  let bit7 := (m &&& 0b10000000) == 0b10000000
  let m := (m <<< 1) % 0x100
  let carry := registers.is_flag_set .C
  let m := m ||| (if carry then 1 else 0)
  let memory := { memory with mem := writeMem memory.mem addr m }
  let registers := registers.set_flag .C bit7
  let registers := registers.set_flag .Z (m == 0)
  (registers.set_flag .N (m ≥ 0x80), memory)

/-- instructions.rs rol_acc. -/
def rol_acc (registers : Registers) : Registers :=
  let m := registers.a
  let bit7 := (m &&& 0b10000000) == 0b10000000
  let m := (m <<< 1) % 0x100
  let carry := registers.is_flag_set .C
  let m := m ||| (if carry then 1 else 0)
  let registers := { registers with a := m }
  let registers := registers.set_flag .C bit7
  let registers := registers.set_flag .Z (registers.a == 0)
  registers.set_flag .N (registers.a ≥ 0x80)

/-- instructions.rs dec: memory byte decremented with u8 wrap, set Z
and N. -/
def dec (registers : Registers) (memory : Memory) (addr : Nat) : Registers × Memory :=
  let memory := { memory with
    mem := writeMem memory.mem addr ((memory.mem addr + 0xFF) % 0x100) }
  let registers := registers.set_flag .Z (memory.mem addr == 0)
  (registers.set_flag .N (memory.mem addr ≥ 0x80), memory)

/-- The CPU-side state of nessy.rs struct Nessy: memory, registers and
the running cycle counter (the PPU-side fields and the cached
reset_vector are not used by any property below). -/
structure Nessy where
  memory : Memory
  registers : Registers
  cycle : Nat

/-- Nessy::new: fresh memory and registers, stack_pointer forced to
0xFF, the APU bytes written to zero (the two slice fills at 0x4000 to
0x400E and 0x4010 to 0x4012 store zeros into already-zero memory), the
D flag cleared, cycle counter started at 7. -/
def Nessy.new : Nessy :=
  let memory := Memory.new
  let registers := Registers.new
  let memory := { memory with stack_pointer := 0xFF }
  let memory := { memory with mem := writeMem memory.mem 0x4017 0x00 }
  let memory := { memory with mem := writeMem memory.mem 0x4015 0x00 }
  let registers := registers.set_flag .D false
  { memory := memory, registers := registers, cycle := 7 }

/-- Nessy::get_opcode: the byte at pc. -/
def Nessy.get_opcode (n : Nessy) : Nat :=
  n.memory.mem n.registers.pc

/-- The two failure points of Nessy::execute: the unknown-opcode panic
(carrying the byte the panic message prints) and the unreachable arm of
get_cycles. -/
inductive ExecuteError where
  | unknownOpcode (reported : Nat)
  | unreachableCycles
deriving DecidableEq

/-- The page-crossing match of Nessy::execute (nessy.rs lines 125-167),
evaluated before pc is advanced; addr is the already-mirrored effective
address, exactly as in the source. -/
def compute_page_crossed (memory : Memory) (registers : Registers)
    (instruction : InstructionName) (addressing_mode : AddressingMode)
    (low_byte high_byte addr : Nat) : Bool :=
  match instruction, addressing_mode with
  | .INC, .AbsoluteIndirectWithX
  | .INC, .AbsoluteIndirectWithY
  | .ADC, .AbsoluteIndirectWithX
  | .ADC, .AbsoluteIndirectWithY
  | .LDA, .AbsoluteIndirectWithX
  | .LDA, .AbsoluteIndirectWithY
  | .LDY, .AbsoluteIndirectWithX
  | .LDY, .AbsoluteIndirectWithY
  | .LDX, .AbsoluteIndirectWithX
  | .LDX, .AbsoluteIndirectWithY
  | .NOP, .AbsoluteIndirectWithX
  | .NOP, .AbsoluteIndirectWithY =>
      is_page_crossed (address_from_bytes low_byte high_byte) addr
  | .ADC, .ZeroPageIndirectIndexedWithY
  | .LDA, .ZeroPageIndirectIndexedWithY
  | .LDY, .ZeroPageIndirectIndexedWithY
  | .LDX, .ZeroPageIndirectIndexedWithY
  | .INC, .ZeroPageIndirectIndexedWithY
  | .LAX, .ZeroPageIndirectIndexedWithY =>
      let low := memory.mem (address_from_bytes low_byte 0x0)
      let high := memory.mem (address_from_bytes ((low_byte + 1) % 0x100) 0x0)
      is_page_crossed (address_from_bytes low high) addr
  | _, .Relative =>
      is_page_crossed ((registers.pc + 2) % 0x10000)
        (u16_of_int (wrap_i16 (wrap_i16 (i16_of_u16 registers.pc + 2) +
          (if addr ≥ 0x80 then wrap_i16 ((addr : Int) - (1 <<< 8))
           else i16_of_u16 addr))))
  | _, .Absolute =>
      is_page_crossed ((registers.pc + 2) % 0x10000) addr
  | _, _ => false

/-- The per-arm `pc += num_operands` advance of Nessy::execute. -/
def advance_pc (registers : Registers) (num_operands : Nat) : Registers :=
  { registers with pc := (registers.pc + num_operands) % 0x10000 }

/-- The instruction-dispatch match of Nessy::execute: one arm per
mnemonic, each running the instruction operation and, except for the
pc-setting instructions, the `pc += num_operands` advance; the Bool is
the branched flag. -/
def dispatch (instruction : InstructionName) (addressing_mode : AddressingMode)
    (num_operands addr j_addr : Nat) (registers : Registers) (memory : Memory) :
    Registers × Memory × Bool :=
  match instruction with
    | .SEI => (advance_pc (sei registers) num_operands, memory, false)
    | .CLD => (advance_pc (cld registers) num_operands, memory, false)
    | .LDA =>
        let data := if addressing_mode = .Immediate then addr % 0x100 else memory.mem addr
        (advance_pc (lda registers data) num_operands, memory, false)
    | .BRK =>
        let (registers, memory) := brk registers memory
        (registers, memory, false)
    | .STA => (advance_pc registers num_operands, sta registers memory addr, false)
    | .INC =>
        let (registers, memory) := inc registers memory addr
        (advance_pc registers num_operands, memory, false)
    | .LDX =>
        let data := if addressing_mode = .Immediate then addr % 0x100 else memory.mem addr
        (advance_pc (ldx registers data) num_operands, memory, false)
    | .TXS => (advance_pc registers num_operands, txs registers memory, false)
    | .AND =>
        if addressing_mode = .Accumulator then
          (advance_pc (and_acc registers) num_operands, memory, false)
        else
          let data := if addressing_mode = .Immediate then addr % 0x100 else memory.mem addr
          (advance_pc (and registers data) num_operands, memory, false)
    | .BEQ =>
        let (registers, taken) := beq registers addr
        if taken then (registers, memory, true)
        else (advance_pc registers num_operands, memory, false)
    | .CPX =>
        let data := if addressing_mode = .Immediate then addr % 0x100 else memory.mem addr
        (advance_pc (cpx registers data) num_operands, memory, false)
    | .DEY => (advance_pc (dey registers) num_operands, memory, false)
    | .BPL =>
        let (registers, taken) := bpl registers addr
        if taken then (registers, memory, true)
        else (advance_pc registers num_operands, memory, false)
    | .PLA =>
        let (registers, memory) := pla registers memory
        (advance_pc registers num_operands, memory, false)
    | .TAY => (advance_pc (tay registers) num_operands, memory, false)
    | .CPY =>
        let data := if addressing_mode = .Immediate then addr % 0x100 else memory.mem addr
        (advance_pc (cpy registers data) num_operands, memory, false)
    | .BNE =>
        let (registers, taken) := bne registers addr
        if taken then (registers, memory, true)
        else (advance_pc registers num_operands, memory, false)
    | .RTS =>
        let (registers, memory) := rts registers memory
        (registers, memory, false)
    | .JMP => (jmp registers j_addr, memory, false)
    | .STX => (advance_pc registers num_operands, stx registers memory addr, false)
    | .JSR =>
        let (registers, memory) := jsr registers memory j_addr
        (registers, memory, false)
    | .NOP => (advance_pc registers num_operands, memory, false)
    | .SEC => (advance_pc (sec registers) num_operands, memory, false)
    | .BCS =>
        let (registers, taken) := bcs registers addr
        if taken then (registers, memory, true)
        else (advance_pc registers num_operands, memory, false)
    | .CLC => (advance_pc (clc registers) num_operands, memory, false)
    | .BCC =>
        let (registers, taken) := bcc registers addr
        if taken then (registers, memory, true)
        else (advance_pc registers num_operands, memory, false)
    | .PHP =>
        let (registers, memory) := php registers memory
        (advance_pc registers num_operands, memory, false)
    | .BIT => (advance_pc (bit registers memory addr) num_operands, memory, false)
    | .BVS =>
        let (registers, taken) := bvs registers addr
        if taken then (registers, memory, true)
        else (advance_pc registers num_operands, memory, false)
    | .BVC =>
        let (registers, taken) := bvc registers addr
        if taken then (registers, memory, true)
        else (advance_pc registers num_operands, memory, false)
    | .LDY =>
        let data := if addressing_mode = .Immediate then addr % 0x100 else memory.mem addr
        (advance_pc (ldy registers data) num_operands, memory, false)
    | .ASL =>
        if addressing_mode = .Accumulator then
          (advance_pc (asl_acc registers) num_operands, memory, false)
        else
          let data := memory.mem addr
          let (registers, memory) := asl registers memory addr data
          (advance_pc registers num_operands, memory, false)
    | .RTI =>
        let (registers, memory) := rti registers memory
        (advance_pc registers num_operands, memory, false)
    | .SBC =>
        let data := if addressing_mode = .Immediate then addr % 0x100 else memory.mem addr
        (advance_pc (sbc registers data) num_operands, memory, false)
    | .SED => (advance_pc (sed registers) num_operands, memory, false)
    | .CMP =>
        let data := if addressing_mode = .Immediate then addr % 0x100 else memory.mem addr
        (advance_pc (cmp registers data) num_operands, memory, false)
    | .PHA => (advance_pc registers num_operands, pha registers memory, false)
    | .PLP =>
        let (registers, memory) := plp registers memory
        (advance_pc registers num_operands, memory, false)
    | .BMI =>
        let (registers, taken) := bmi registers addr
        if taken then (registers, memory, true)
        else (advance_pc registers num_operands, memory, false)
    | .ORA =>
        let data := if addressing_mode = .Immediate then addr % 0x100 else memory.mem addr
        (advance_pc (ora registers data) num_operands, memory, false)
    | .CLV => (advance_pc (clv registers) num_operands, memory, false)
    | .EOR =>
        let data := if addressing_mode = .Immediate then addr % 0x100 else memory.mem addr
        (advance_pc (eor registers data) num_operands, memory, false)
    | .ADC =>
        let data := if addressing_mode = .Immediate then addr % 0x100 else memory.mem addr
        (advance_pc (adc registers data) num_operands, memory, false)
    | .STY => (advance_pc registers num_operands, sty registers memory addr, false)
    | .INY => (advance_pc (iny registers) num_operands, memory, false)
    | .INX => (advance_pc (inx registers) num_operands, memory, false)
    | .TAX => (advance_pc (tax registers) num_operands, memory, false)
    | .TYA => (advance_pc (tya registers) num_operands, memory, false)
    | .TXA => (advance_pc (txa registers) num_operands, memory, false)
    | .TSX => (advance_pc (tsx registers memory) num_operands, memory, false)
    | .DEX => (advance_pc (dex registers) num_operands, memory, false)
    | .LSR =>
        if addressing_mode = .Accumulator then
          (advance_pc (lsr_acc registers) num_operands, memory, false)
        else
          let (registers, memory) := lsr registers memory addr
          (advance_pc registers num_operands, memory, false)
    | .ROR =>
        if addressing_mode = .Accumulator then
          (advance_pc (ror_acc registers) num_operands, memory, false)
        else
          let (registers, memory) := ror registers memory addr
          (advance_pc registers num_operands, memory, false)
    | .ROL =>
        if addressing_mode = .Accumulator then
          (advance_pc (rol_acc registers) num_operands, memory, false)
        else
          let data := memory.mem addr
          let (registers, memory) := rol registers memory addr data
          (advance_pc registers num_operands, memory, false)
    | .DEC =>
        let (registers, memory) := dec registers memory addr
        (advance_pc registers num_operands, memory, false)
    | .LAX =>
        let data := if addressing_mode = .Immediate then addr % 0x100 else memory.mem addr
        let registers := lda registers data
        let registers := ldx registers data
        (advance_pc registers num_operands, memory, false)
    | .SAX =>
        let memory := { memory with
          mem := writeMem memory.mem addr ((registers.a &&& registers.x) % 0x100) }
        (advance_pc registers num_operands, memory, false)
    | .DCP =>
        let (registers, memory) := dec registers memory addr
        let registers := cmp registers (memory.mem addr)
        (advance_pc registers num_operands, memory, false)
    | .ISB =>
        let (registers, memory) := inc registers memory addr
        let registers := sbc registers (memory.mem addr)
        (advance_pc registers num_operands, memory, false)
    | .SLO =>
        let data := memory.mem addr
        let (registers, memory) := asl registers memory addr data
        let registers := ora registers (memory.mem addr)
        (advance_pc registers num_operands, memory, false)
    | .RLA =>
        let data := memory.mem addr
        let (registers, memory) := rol registers memory addr data
        let registers := and registers (memory.mem addr)
        (advance_pc registers num_operands, memory, false)
    | .SRE =>
        let (registers, memory) := lsr registers memory addr
        let registers := eor registers (memory.mem addr)
        (advance_pc registers num_operands, memory, false)
    | .RRA =>
        let (registers, memory) := ror registers memory addr
        let registers := adc registers (memory.mem addr)
        (advance_pc registers num_operands, memory, false)

/-- The body of Nessy::execute after a successful decode: operand fetch,
address resolution, RAM mirroring, page-cross computation, dispatch to
the instruction operations, and cycle charge. -/
def Nessy.execute_decoded (n : Nessy) (instruction : InstructionName)
    (addressing_mode : AddressingMode) : Except ExecuteError Nessy :=
  let num_operands := num_operands_from_addressing addressing_mode
  let ops := get_operands n.registers n.memory
  let low_byte := ops.1
  let high_byte := ops.2
  let addr1 := (apply_addressing n.memory n.registers addressing_mode low_byte high_byte).getD 0
  let mirror := mirror_addr addr1
  let j_addr := addr1
  let addr := mirror
  let page_crossed :=
    compute_page_crossed n.memory n.registers instruction addressing_mode low_byte high_byte addr
  let registers := { n.registers with pc := (n.registers.pc + 1) % 0x10000 }
  let step := dispatch instruction addressing_mode num_operands addr j_addr registers n.memory
  let registers := step.1
  let memory := step.2.1
  let branched := step.2.2
  match get_cycles instruction addressing_mode page_crossed branched with
  | none => .error .unreachableCycles
  | some new_cycles =>
      .ok { memory := memory, registers := registers, cycle := n.cycle + new_cycles }

/-- Nessy::execute: decode the byte at pc; an Unknown decode is the
fatal unknown-opcode panic, whose message prints the byte at pc - 1
(u16 wrapping); otherwise run the decoded instruction. -/
def Nessy.execute (n : Nessy) : Except ExecuteError Nessy :=
  let opcode := n.get_opcode
  match match_instruction opcode with
  | .Unknown =>
      .error (.unknownOpcode (n.memory.mem ((n.registers.pc + 0xFFFF) % 0x10000)))
  | .Official instruction addressing_mode => n.execute_decoded instruction addressing_mode
  | .Unofficial instruction addressing_mode => n.execute_decoded instruction addressing_mode

/-- Projection: the state after a successful step. -/
def okState (e : Except ExecuteError Nessy) : Option Nessy :=
  match e with
  | .ok s => some s
  | .error _ => none

/-- Projection: the error of a failed step. -/
def errState (e : Except ExecuteError Nessy) : Option ExecuteError :=
  match e with
  | .ok _ => none
  | .error err => some err

/-- A state holding LDA absolute from 0x2010 (program 0xAD 0x10 0x20 at
pc 0), with 0x55 at the address the code mirrors to (0x2008) and 0x77 at
the address the specification mirroring would give (0x2000). -/
def C2_state : Nessy :=
  { memory :=
      { mem := writeMem (writeMem (writeMem (writeMem (writeMem
          (fun _ => 0) 0x0 0xAD) 0x1 0x10) 0x2 0x20) 0x2008 0x55) 0x2000 0x77,
        stack_pointer := 0xFF },
    registers := Registers.new,
    cycle := 0 }

/-- A state holding LDA absolute-indexed-X from base 0x20FF with X = 1
(program 0xBD 0xFF 0x20 at pc 0), the page-crossing cycle test vector of
the specification. -/
def C3_state : Nessy :=
  { memory :=
      { mem := writeMem (writeMem (writeMem (fun _ => 0) 0x0 0xBD) 0x1 0xFF) 0x2 0x20,
        stack_pointer := 0xFF },
    registers := { Registers.new with x := 1 },
    cycle := 0 }

/-- A state holding the same LDA absolute-indexed-X with no page
crossing: base 0x0410 with X = 1 (program 0xBD 0x10 0x04 at pc 0). -/
def C3_state_nocross : Nessy :=
  { memory :=
      { mem := writeMem (writeMem (writeMem (fun _ => 0) 0x0 0xBD) 0x1 0x10) 0x2 0x04,
        stack_pointer := 0xFF },
    registers := { Registers.new with x := 1 },
    cycle := 0 }

/-- n consecutive stack pushes of the byte 0, starting from a given
memory. -/
def pushRep (m : Memory) : Nat → Memory
  | 0 => m
  | k + 1 => (pushRep m k).stack_push 0

/-- The boot state of the C5 BRK test vector: Nessy::new (pc = 0,
status = 0, stack pointer 0xFF) with the break vector at 0xFFFE and
0xFFFF encoding 0x0042; the opcode byte at pc is 0x00, BRK. -/
def C5_state : Nessy :=
  { Nessy.new with memory :=
      { Nessy.new.memory with mem := writeMem Nessy.new.memory.mem 0xFFFE 0x42 } }

/-- The state after the C5 BRK step, when the step succeeds. -/
def C5_after : Option Nessy := okState C5_state.execute

/-- Boot state with opcode 0x89 (decoded as official BIT immediate) at
pc = 0. -/
def C8_state : Nessy :=
  { Nessy.new with memory :=
      { Nessy.new.memory with mem := writeMem Nessy.new.memory.mem 0x0 0x89 } }

/-- Boot state with pc = 0x10, the unassigned opcode byte 0x02 at pc,
and the byte 0xEA at pc - 1. -/
def C9_state : Nessy :=
  { Nessy.new with
    registers := { Nessy.new.registers with pc := 0x10 },
    memory :=
      { Nessy.new.memory with
        mem := writeMem (writeMem Nessy.new.memory.mem 0x10 0x02) 0x0F 0xEA } }

/-- The memory of the C6 indirect-JMP test vector: 0xFF at 0xA0FF and
0x00 at 0xA000. -/
def C6_memory : Memory :=
  { mem := writeMem (writeMem (fun _ => 0) 0xA0FF 0xFF) 0xA000 0x00,
    stack_pointer := 0xFF }

/-- Claim C1: the opcode decoder match_instruction is total over every
byte 0x00 to 0xFF, and every result is one of Official, Unofficial or
Unknown; as a Lean function of the byte alone it is pure and stable by
construction. -/
theorem C1_decode_total :
    ∀ b : Fin 256,
      (∃ i m, match_instruction b.val = .Official i m) ∨
      (∃ i m, match_instruction b.val = .Unofficial i m) ∨
      match_instruction b.val = .Unknown := by
  intro b
  cases h : match_instruction b.val with
  | Official i m => exact Or.inl ⟨i, m, rfl⟩
  | Unofficial i m => exact Or.inr (Or.inl ⟨i, m, rfl⟩)
  | Unknown => exact Or.inr (Or.inr rfl)

/-- Claim C2 (refuted, code bug): the mirroring applied to data
addresses in the range 0x2000 to 0x3FFF is addr % 0x2008 + 0x2000, not
0x2000 plus the address modulo 8 as the claim states: address 0x2010
mirrors to 0x2008 instead of 0x2000, address 0x2000 itself mirrors to
0x4000, and a step executing LDA absolute from 0x2010 loads the byte
stored at 0x2008. -/
theorem C2_ppu_mirroring_bug :
    mirror_addr 0x2010 = 0x2008 ∧
    spec_mirror_addr 0x2010 = 0x2000 ∧
    mirror_addr 0x2000 = 0x4000 ∧
    spec_mirror_addr 0x2000 = 0x2000 ∧
    (okState C2_state.execute).map (fun s => s.registers.a) = some 0x55 := by
  refine ⟨by decide, by decide, by decide, by decide, by decide⟩

/-- Claim C3 (refuted, code bug): the step executing LDA
absolute-indexed-X from base 0x20FF with X = 1 adds 4 cycles, not 5,
because the page-cross test compares the high byte of the base with the
high byte of the already-mirrored final address (0x2100 mirrors to
0x20F8, same page as 0x20FF); the cycle table itself would give 5 had
the crossing been detected, and the no-crossing case does add 4. -/
theorem C3_page_cross_cycle_bug :
    (okState C3_state.execute).map (fun s => s.cycle) = some 4 ∧
    (okState C3_state_nocross.execute).map (fun s => s.cycle) = some 4 ∧
    get_cycles .LDA .AbsoluteIndirectWithX true false = some 5 ∧
    is_page_crossed 0x20FF 0x2100 = true ∧
    mirror_addr 0x2100 = 0x20F8 ∧
    is_page_crossed 0x20FF (mirror_addr 0x2100) = false := by
  refine ⟨by decide, by decide, by decide, by decide, by decide, by decide⟩

set_option maxRecDepth 80000 in
/-- Claim C4 (refuted, code bug): the stack pointer is an unmasked u16,
so from the boot value 0xFF the first 256 pushes do write inside page 1,
but the stack pointer then wraps to 0xFFFF over the full 16-bit range
instead of wrapping within the page, and the 257th push writes to
address 0xFFFF, outside 0x0100 to 0x01FF (under debug-profile arithmetic
the 256th push already panics on the u16 underflow). -/
theorem C4_stack_escapes_page_one :
    (pushRep Nessy.new.memory 256).stack_pointer = 0xFFFF ∧
    (0x100 ||| (pushRep Nessy.new.memory 256).stack_pointer) = 0xFFFF ∧
    ¬ ((0x100 ||| (pushRep Nessy.new.memory 256).stack_pointer) ≤ 0x1FF) ∧
    ((List.range 256).all fun k =>
      decide ((0x100 ||| (pushRep Nessy.new.memory k).stack_pointer) ≤ 0x1FF)) = true := by
  refine ⟨by decide, by decide, by decide, by decide⟩

/-- Claim C5 (refuted at the pushed status byte): executing BRK from
pc = 0, status = 0 pushes 0x30 as the status byte, because the I flag is
set only after the push; the claim expects status OR 0x34 = 0x34 on top
of the stack. -/
theorem C5_brk_status_byte_counterexample :
    C5_after.map (fun s => s.memory.mem 0x1FD) = some 0x30 ∧
    (0x30 : Nat) ≠ 0x00 ||| 0x34 := by
  refine ⟨by decide, by decide⟩

/-- Claim C5 as amended: the same BRK step leaves the stack holding
top-down the bytes 0x30 (status with B and Unused forced, I not yet
included), 0x02 and 0x00, sets the I flag in the live status, and sets
pc to 0x0042. -/
theorem C5_brk_amended :
    C5_after.map (fun s => s.memory.mem 0x1FD) = some 0x30 ∧
    C5_after.map (fun s => s.memory.mem 0x1FE) = some 0x02 ∧
    C5_after.map (fun s => s.memory.mem 0x1FF) = some 0x00 ∧
    C5_after.map (fun s => s.memory.stack_pointer) = some 0xFC ∧
    C5_after.map (fun s => s.registers.status &&& 0x04) = some 0x04 ∧
    C5_after.map (fun s => s.registers.status) = some 0x34 ∧
    C5_after.map (fun s => s.registers.pc) = some 0x42 := by
  refine ⟨by decide, by decide, by decide, by decide, by decide, by decide, by decide⟩

/-- Claim C6: AbsoluteIndirect resolution reproduces the page-boundary
hardware bug: whenever the pointer low byte is 0xFF the target high byte
is read from the start of the same page, and with 0xFF at 0xA0FF and
0x00 at 0xA000 the resolved target is 0x00FF. -/
theorem C6_indirect_jmp_page_bug :
    (∀ (memory : Memory) (registers : Registers) (high_byte : Nat),
      apply_addressing memory registers .AbsoluteIndirect 0xFF high_byte =
        some (address_from_bytes
          (memory.mem (address_from_bytes 0xFF high_byte))
          (memory.mem (address_from_bytes 0x00 high_byte)))) ∧
    apply_addressing C6_memory Registers.new .AbsoluteIndirect 0xFF 0xA0 = some 0x00FF := by
  refine ⟨fun _ _ _ => rfl, by decide⟩

/-- Claim C7: zero-page indexed resolution adds the index with 8-bit
wrap, so the resolved address is always (low + index) mod 256, at most
0xFF; in particular low byte 0xFF with X = 2 resolves to 0x0001. -/
theorem C7_zero_page_index_wraps :
    (∀ (memory : Memory) (registers : Registers) (low_byte high_byte : Nat),
      apply_addressing memory registers .ZeroPageIndexedWithX low_byte high_byte =
        some ((low_byte + registers.x) % 0x100) ∧
      (low_byte + registers.x) % 0x100 ≤ 0xFF) ∧
    (∀ (memory : Memory) (registers : Registers) (low_byte high_byte : Nat),
      apply_addressing memory registers .ZeroPageIndexedWithY low_byte high_byte =
        some ((low_byte + registers.y) % 0x100) ∧
      (low_byte + registers.y) % 0x100 ≤ 0xFF) ∧
    apply_addressing Memory.new { Registers.new with x := 0x02 }
      .ZeroPageIndexedWithX 0xFF 0x00 = some 0x01 := by
  refine ⟨fun _ r _ _ => ⟨rfl, ?_⟩, fun _ r _ _ => ⟨rfl, ?_⟩, by decide⟩
  · exact Nat.le_of_lt_succ (Nat.mod_lt _ (by norm_num))
  · exact Nat.le_of_lt_succ (Nat.mod_lt _ (by norm_num))

/-- Claim C8 (refuted, code bug): opcode 0x89 decodes to the official
pair BIT with Immediate addressing, but the cycle table has no entry for
that pair, so a step on 0x89 reaches the unreachable arm of get_cycles
and fails instead of completing. -/
theorem C8_bit_immediate_cycle_table_hole :
    match_instruction 0x89 = .Official .BIT .Immediate ∧
    get_cycles .BIT .Immediate false false = none ∧
    errState C8_state.execute = some .unreachableCycles := by
  refine ⟨by decide, by decide, by decide⟩

/-- Claim C9 (refuted, code bug): on the unassigned opcode 0x02 at
pc = 0x10 the step does terminate with the fatal unknown-opcode error,
but the byte it reports is the one at pc - 1 (here 0xEA), not the
offending byte 0x02 at pc, and the error carries no pc value at all. -/
theorem C9_unknown_opcode_report_bug :
    match_instruction 0x02 = .Unknown ∧
    C9_state.memory.mem C9_state.registers.pc = 0x02 ∧
    errState C9_state.execute = some (.unknownOpcode 0xEA) ∧
    (0xEA : Nat) ≠ 0x02 := by
  refine ⟨by decide, by decide, by decide, by decide⟩

/-- Unfolding equation for php: it pushes status OR 0x10 OR 0x20 and
leaves the live status equal to that byte with bit 4 masked off. -/
theorem php_spec (registers : Registers) (memory : Memory) :
    php registers memory =
      ({ registers with status := (registers.status ||| 0x10 ||| 0x20) &&& 0xEF },
       { memory with
          mem := writeMem memory.mem (0x100 ||| memory.stack_pointer)
            (registers.status ||| 0x10 ||| 0x20),
          stack_pointer := (memory.stack_pointer + 0xFFFF) % 0x10000 }) := rfl

set_option maxRecDepth 8000 in
/-- Bitwise facts about the php status transformation, checked over all
byte values. -/
theorem php_status_facts :
    ∀ s < 256,
      s ||| 0x10 ||| 0x20 = s ||| 0x30 ∧
      ((s ||| 0x10 ||| 0x20) &&& 0xEF) &&& 0x10 = 0 ∧
      ((s ||| 0x10 ||| 0x20) &&& 0xEF) &&& 0x20 = 0x20 ∧
      ∀ i < 8, i ≠ 4 → i ≠ 5 →
        ((s ||| 0x10 ||| 0x20) &&& 0xEF).testBit i = s.testBit i := by decide

/-- Claim C10 (refuted at the Unused bit): php on a state with status
0x00 leaves the live status equal to 0x20: the Unused bit (bit 5) has
been forced to 1 and is not restored, so it does not keep its pre-PHP
value. -/
theorem C10_php_unused_bit_counterexample :
    (php Registers.new Memory.new).1.status = 0x20 ∧
    Nat.testBit ((php Registers.new Memory.new).1.status) 5 = true ∧
    Nat.testBit Registers.new.status 5 = false := by
  refine ⟨by decide, by decide, by decide⟩

/-- Claim C10 as amended: for every starting status byte, php pushes
status OR 0x30 (bits 4 and 5 forced to 1), and afterwards the live B
flag is clear, the live Unused flag is forced to 1, every status bit
other than bits 4 and 5 keeps its pre-PHP value, the other registers
are unchanged, and the stack pointer is decremented. -/
theorem C10_php_amended :
    ∀ (registers : Registers) (memory : Memory), registers.status < 0x100 →
      (php registers memory).2.mem (0x100 ||| memory.stack_pointer) =
        registers.status ||| 0x30 ∧
      (php registers memory).2.stack_pointer = (memory.stack_pointer + 0xFFFF) % 0x10000 ∧
      (php registers memory).1.status &&& 0x10 = 0 ∧
      (php registers memory).1.status &&& 0x20 = 0x20 ∧
      (∀ i < 8, i ≠ 4 → i ≠ 5 →
        ((php registers memory).1.status).testBit i = registers.status.testBit i) ∧
      (php registers memory).1.a = registers.a ∧
      (php registers memory).1.x = registers.x ∧
      (php registers memory).1.y = registers.y ∧
      (php registers memory).1.pc = registers.pc ∧
      (php registers memory).1.s = registers.s := by
  intro registers memory hs
  obtain ⟨h1, h2, h3, h4⟩ := php_status_facts registers.status hs
  rw [php_spec]
  refine ⟨?_, rfl, h2, h3, h4, rfl, rfl, rfl, rfl, rfl⟩
  simpa [writeMem] using h1

/-- Witness for the amended C10 claim at the concrete status byte 0xC3
with a fresh memory. -/
theorem C10_php_amended_witness :
    (php { Registers.new with status := 0xC3 } Memory.new).2.mem
      (0x100 ||| Memory.new.stack_pointer) = 0xC3 ||| 0x30 ∧
    ((php { Registers.new with status := 0xC3 } Memory.new).1.status).testBit 0 =
      Nat.testBit 0xC3 0 :=
  ⟨(C10_php_amended { Registers.new with status := 0xC3 } Memory.new (by decide)).1,
   (C10_php_amended { Registers.new with status := 0xC3 } Memory.new
     (by decide)).2.2.2.2.1 0 (by decide) (by decide) (by decide)⟩

end NessyRs
